import Mathlib

/-!
Shallow embedding of the `sweetpalma/ml` repository: a GitHub Pages CI
workflow (`.github/workflows` YAML, given as `src/unnamed/part_000`) and
three sentiment-analysis Jupyter files (logistic regression,
LSTM — both inside `src/sentiment/04-lstm.ipynb` — and a RoBERTa
transformer in `src/sentiment/05-roberta.ipynb`).  Each code cell of the
Python sources is translated statement by statement into a small Python
statement syntax (`PyStmt`), the workflow YAML into plain records, and the
few genuinely computational fragments (the embedding-matrix loop, the
sequence padding, the seeded/unseeded splits, the model/pipeline
configurations) into executable Lean functions.
-/

namespace MlRepo

/-! ## CI workflow (src/unnamed/part_000)

The workflow file `GitHub Pages Deploy`:

```yaml
on:
  push:
    branches: [master]
permissions:
  contents: read
  pages: write
  id-token: write
concurrency:
  group: 'pages'
  cancel-in-progress: false
jobs:
  deploy: ...
```
-/

/-- Push event as seen by the workflow trigger: the branch that was pushed. -/
structure PushEvent where
  branch : String
deriving DecidableEq

/-- The branch filter of the `on: push:` trigger (line 4 of the workflow). -/
def onPushBranches : List String := ["master"]

/-- The repository's main branch.  The workflow names it `master`: it is the
branch the GitHub Pages site is built and deployed from. -/
def mainBranch : String := "master"

/-- GitHub Actions trigger semantics for a `push` event filtered by
`branches`: the workflow (and hence its only job, `deploy`, which carries no
`if:` condition) runs exactly when the pushed branch is in the filter list. -/
def deployJobRuns (e : PushEvent) : Bool := onPushBranches.contains e.branch

/-- Step names of the single `deploy` job, in the order they appear in the
YAML.  GitHub runs the steps of one job strictly in sequence. -/
def deployJobSteps : List String :=
  ["actions/checkout@v4", "Setup Pages", "actions/setup-node@v4",
   "Install MyST Markdown", "Build HTML Assets", "Upload artifact",
   "Deploy to GitHub Pages"]

/-- The workflow's jobs: exactly one job, `deploy`, with its step list. -/
def workflowJobs : List (String × List String) := [("deploy", deployJobSteps)]

/-- Source `concurrency.group` of the workflow. -/
def concurrencyGroup : String := "pages"

/-- Source `concurrency.cancel-in-progress` of the workflow. -/
def cancelInProgress : Bool := false

/-- State of one GitHub Actions concurrency group: the runs currently
executing, the (at most one) queued pending run, and the runs that were
cancelled while already in progress. -/
structure CiState where
  running : List Nat
  pending : Option Nat
  cancelledInProgress : List Nat
deriving DecidableEq

/-- Events a concurrency group reacts to: a new workflow run arriving, or the
currently executing run finishing. -/
inductive CiEvent where
  | arrive (id : Nat)
  | finish
deriving DecidableEq

/-- GitHub Actions concurrency-group semantics, parameterised by
`cancel-in-progress`.  A run arriving while the group is busy either cancels
the in-progress run and takes its place (`cip = true`) or waits as the
pending run (`cip = false`, superseding any older pending run, which GitHub
cancels before it ever starts).  When a run finishes, the pending run, if
any, starts. -/
def ciStep (cip : Bool) (s : CiState) : CiEvent → CiState
  | .arrive id =>
    if s.running.isEmpty then { s with running := [id] }
    else if cip then
      { running := [id], pending := none,
        cancelledInProgress := s.cancelledInProgress ++ s.running }
    else { s with pending := some id }
  | .finish =>
    { running := s.pending.toList, pending := none,
      cancelledInProgress := s.cancelledInProgress }

/-- Initial state of a concurrency group: nothing running, nothing pending,
nothing cancelled. -/
def ciInit : CiState := ⟨[], none, []⟩

/-- Run a sequence of events through the concurrency group. -/
def ciRun (cip : Bool) (evs : List CiEvent) : CiState := evs.foldl (ciStep cip) ciInit

/-! ## Python statement syntax

Each code cell of the three documents is translated statement by statement.
A statement records the plain names it binds (`targets` of an assignment,
imported names, a defined function's name) and the plain names it reads.
Attribute and subscript assignments (`df.columns = ...`,
`embedding_matrix[index] = ...`, `model.config.x = ...`) bind no new name
and are translated as `expr` reading the base object.  IPython magic lines
(`%env ...`, `%%capture ...`) reference no Python names and are omitted. -/

inductive PyStmt where
  /-- no-op, the empty suffix of a block -/
  | pass
  /-- Source `import m` / `from m import a, b`: the names bound in the namespace -/
  | imp (names : List String)
  /-- assignment `t1, t2 = e`: bound names and the names `e` reads -/
  | assign (targets : List String) (uses : List String)
  /-- expression statement (or attribute/subscript assignment): names read -/
  | expr (uses : List String)
  /-- Source `def name(params): body`: external (non-local, non-parameter) names the
  body reads are recorded in `bodyUses` -/
  | funcDef (name : String) (params : List String) (bodyUses : List String)
  /-- sequencing of two statements -/
  | seq (a b : PyStmt)
  /-- Source `for targets in iter: body` -/
  | forLoop (targets : List String) (iterUses : List String) (body : PyStmt)
  /-- Source `if cond: thenB else: elseB` -/
  | ifElse (condUses : List String) (thenB elseB : PyStmt)
  /-- Source `while cond: body` -/
  | whileLoop (condUses : List String) (body : PyStmt)
  /-- Source `try: body except: handler` -/
  | tryExcept (body handler : PyStmt)
  /-- Source `with ctx: body` -/
  | withBlock (ctxUses : List String) (body : PyStmt)
deriving DecidableEq

/-- Build a statement from a cell's list of statements by right-nested
sequencing. -/
def pySeq (l : List PyStmt) : PyStmt := l.foldr PyStmt.seq PyStmt.pass

/-- Does the statement contain an `if`? -/
def containsIf : PyStmt → Bool
  | .pass | .imp _ | .assign _ _ | .expr _ | .funcDef _ _ _ => false
  | .seq a b => containsIf a || containsIf b
  | .forLoop _ _ b => containsIf b
  | .ifElse _ _ _ => true
  | .whileLoop _ b => containsIf b
  | .tryExcept b h => containsIf b || containsIf h
  | .withBlock _ b => containsIf b

/-- Does the statement contain a `while` loop? -/
def containsWhile : PyStmt → Bool
  | .pass | .imp _ | .assign _ _ | .expr _ | .funcDef _ _ _ => false
  | .seq a b => containsWhile a || containsWhile b
  | .forLoop _ _ b => containsWhile b
  | .ifElse _ t e => containsWhile t || containsWhile e
  | .whileLoop _ _ => true
  | .tryExcept b h => containsWhile b || containsWhile h
  | .withBlock _ b => containsWhile b

/-- Does the statement contain a `try`/`except` handler? -/
def containsTry : PyStmt → Bool
  | .pass | .imp _ | .assign _ _ | .expr _ | .funcDef _ _ _ => false
  | .seq a b => containsTry a || containsTry b
  | .forLoop _ _ b => containsTry b
  | .ifElse _ t e => containsTry t || containsTry e
  | .whileLoop _ b => containsTry b
  | .tryExcept _ _ => true
  | .withBlock _ b => containsTry b

/-- Names read by a statement that the environment (already-bound names)
does not contain, in order of occurrence, paired with the environment after
the statement.  The environment grows by assignment targets, imported names,
loop targets and function names; a branch's bindings are visible after the
conditional, as in Python. -/
def undefUses (env : List String) : PyStmt → List String × List String
  | .pass => ([], env)
  | .imp ns => ([], env ++ ns)
  | .assign ts us => (us.filter (fun u => !env.contains u), env ++ ts)
  | .expr us => (us.filter (fun u => !env.contains u), env)
  | .funcDef n ps bus =>
    (bus.filter (fun u => !(env ++ n :: ps).contains u), env ++ [n])
  | .seq a b =>
    let ra := undefUses env a
    let rb := undefUses ra.2 b
    (ra.1 ++ rb.1, rb.2)
  | .forLoop ts itus body =>
    let m0 := itus.filter (fun u => !env.contains u)
    let rb := undefUses (env ++ ts) body
    (m0 ++ rb.1, rb.2)
  | .ifElse c t e =>
    let mc := c.filter (fun u => !env.contains u)
    let rt := undefUses env t
    let re := undefUses env e
    (mc ++ rt.1 ++ re.1, rt.2 ++ re.2.filter (fun n => !rt.2.contains n))
  | .whileLoop c body =>
    let mc := c.filter (fun u => !env.contains u)
    let rb := undefUses env body
    (mc ++ rb.1, rb.2)
  | .tryExcept b h =>
    let rb := undefUses env b
    let rh := undefUses rb.2 h
    (rb.1 ++ rh.1, rh.2)
  | .withBlock c body =>
    let mc := c.filter (fun u => !env.contains u)
    let rb := undefUses env body
    (mc ++ rb.1, rb.2)

/-- Names available in a fresh IPython interpreter that the three documents
actually rely on: Python builtins plus IPython's `display`. -/
def freshEnv : List String := ["display", "print", "len", "str", "dict", "int"]

/-- A statement (with its nested blocks) is straight-line, self-contained
code: no conditional, no `while`, no `try`/`except`, and every name it reads
is a builtin or bound earlier by the statement sequence itself. -/
def straightLineSelfContained (p : PyStmt) : Prop :=
  containsIf p = false ∧ containsWhile p = false ∧ containsTry p = false ∧
    (undefUses freshEnv p).1 = []

instance (p : PyStmt) : Decidable (straightLineSelfContained p) := by
  unfold straightLineSelfContained; infer_instance

/-! ## Execution semantics with library failures

Every import, assignment, expression statement and block head calls into a
library and may raise; `beh` is the oracle describing what the library does
at the `k`-th call: proceed (returning, for a conditional head, the branch
taken), or raise an error.  A `try`/`except` swallows the body's error and
runs the handler; nothing else intercepts an error. -/

/-- Errors a library call can raise (the spec's examples). -/
inductive Err where
  | downloadError
  | shapeMismatch
  | outOfMemory
deriving DecidableEq

/-- Outcome of one library call: proceed (with a truth value consumed by
conditional heads) or raise an error. -/
inductive StepRes where
  | go (b : Bool)
  | raise (e : Err)
deriving DecidableEq

/-- Run a statement under the library behaviour `beh`, starting at call
counter `k`.  Returns the next counter, or the error that aborted the run.
Loop bodies execute once or not at all depending on the oracle's truth
value. -/
def runPy (beh : Nat → StepRes) : PyStmt → Nat → Except Err Nat
  | .pass, k => .ok k
  | .imp _, k =>
    match beh k with
    | .raise e => .error e
    | .go _ => .ok (k + 1)
  | .assign _ _, k =>
    match beh k with
    | .raise e => .error e
    | .go _ => .ok (k + 1)
  | .expr _, k =>
    match beh k with
    | .raise e => .error e
    | .go _ => .ok (k + 1)
  | .funcDef _ _ _, k => .ok k
  | .seq a b, k =>
    match runPy beh a k with
    | .error e => .error e
    | .ok k' => runPy beh b k'
  | .forLoop _ _ body, k =>
    match beh k with
    | .raise e => .error e
    | .go true => runPy beh body (k + 1)
    | .go false => .ok (k + 1)
  | .ifElse _ t e, k =>
    match beh k with
    | .raise err => .error err
    | .go true => runPy beh t (k + 1)
    | .go false => runPy beh e (k + 1)
  | .whileLoop _ body, k =>
    match beh k with
    | .raise e => .error e
    | .go true => runPy beh body (k + 1)
    | .go false => .ok (k + 1)
  | .tryExcept body handler, k =>
    match runPy beh body k with
    | .ok k' => .ok k'
    | .error _ => runPy beh handler (k + 1)
  | .withBlock _ body, k =>
    match beh k with
    | .raise e => .error e
    | .go _ => runPy beh body (k + 1)

/-! ## The LSTM document (first document of src/sentiment/04-lstm.ipynb)

Code cells in order; one `PyStmt` per source statement. -/

/-- The LSTM document's statements.  Cells: data loading via `kagglehub`,
train/test split, label binarisation, Keras tokenizer, padding, the
embedding-matrix loop, model construction, early stopping, optimizer,
compile+fit, and the classification report. -/
def lstmDoc : PyStmt := pySeq [
  -- cell: data preparation
  .imp ["kagglehub"],
  .assign ["df"] ["kagglehub"],
  .assign ["df"] ["df"],
  .expr ["df"],                          -- df.columns = ['sentiment', 'text']
  .expr ["df", "str"],                   -- df['text'] = df['text'].astype(str)
  .expr ["df", "str"],                   -- df['sentiment'] = ...
  .assign ["df"] ["df"],                 -- df = df.dropna()
  .assign ["df"] ["df"],                 -- df = df.loc[...]
  .expr ["display", "df"],
  -- cell: train/test split
  .imp ["train_test_split"],
  .assign ["train", "test"] ["train_test_split", "df"],
  .assign ["x_train"] ["train"],
  .assign ["y_train"] ["train"],
  .assign ["x_test"] ["test"],
  .assign ["y_test"] ["test"],
  -- cell: label encoding
  .imp ["pd"],
  .imp ["LabelBinarizer"],
  .assign ["encoder"] ["LabelBinarizer"],
  .expr ["encoder", "df"],               -- encoder.fit(df['sentiment'])
  .assign ["y_train_encoded"] ["pd", "encoder", "y_train"],
  .assign ["y_test_encoded"] ["pd", "encoder", "y_test"],
  -- cell: tokenization
  .imp ["Tokenizer"],
  .assign ["tokenizer"] ["Tokenizer"],
  .expr ["tokenizer", "df"],             -- tokenizer.fit_on_texts(df['text'])
  .expr ["display", "tokenizer"],
  -- cell: data padding
  .assign ["maxlen"] [],
  .imp ["pad_sequences"],
  .assign ["x_train"] ["pad_sequences", "tokenizer", "x_train", "maxlen"],
  .assign ["x_test"] ["pad_sequences", "tokenizer", "x_test", "maxlen"],
  .expr ["display", "x_train"],
  -- cell: embedding matrix (reads `wv` and `np`, bound nowhere in this
  -- document)
  .assign ["embedding_matrix_shape"] ["len", "tokenizer", "wv"],
  .assign ["embedding_matrix"] ["np", "embedding_matrix_shape"],
  .forLoop ["word", "index"] ["tokenizer"] (pySeq [
    .ifElse ["word", "wv"]
      (pySeq [.expr ["embedding_matrix", "index", "wv", "word"]])
      (pySeq [.expr ["embedding_matrix", "index", "np", "wv"]])]),
  -- cell: model construction
  .imp ["layers", "Sequential"],
  .assign ["num_classes"] ["len", "encoder"],
  .assign ["model"]
    ["Sequential", "layers", "embedding_matrix", "embedding_matrix_shape",
     "num_classes"],
  -- cell: early stopping
  .imp ["EarlyStopping"],
  .assign ["earlystop"] ["EarlyStopping"],
  -- cell: optimizer
  .imp ["Adam"],
  .assign ["optimizer"] ["Adam"],
  -- cell: compile and fit
  .expr ["model", "optimizer"],
  .expr ["model", "x_train", "y_train_encoded", "earlystop"],
  -- cell: result
  .imp ["classification_report"],
  .assign ["y_pred_probs"] ["model", "x_test"],
  .assign ["y_pred_labels"] ["np", "y_pred_probs"],
  .assign ["y_true_labels"] ["np", "y_test_encoded"],
  .expr ["print", "classification_report", "y_true_labels", "y_pred_labels",
         "encoder"]]

/-! ## The logistic-regression document (second document of
src/sentiment/04-lstm.ipynb) -/

/-- The logistic-regression document's statements.  Cells: IMDB dataset
loading and seeded split, count vectorizer, scaler, pipeline, parameter
grid, randomized search, and the classification report. -/
def logisticDoc : PyStmt := pySeq [
  -- cell: data preparation
  .imp ["load_dataset"],
  .assign ["ds"] ["load_dataset"],
  .assign ["train", "test"] ["ds"],      -- ds.train_test_split(...).values()
  .expr ["display", "train"],
  .assign ["x_train"] ["train"],
  .assign ["y_train"] ["train"],
  .assign ["x_test"] ["test"],
  .assign ["y_test"] ["test"],
  -- cell: vectorizer
  .imp ["CountVectorizer"],
  .assign ["vectorizer"] ["CountVectorizer"],
  -- cell: vectorizer example
  .assign ["example_vector"] ["vectorizer"],
  .expr ["display", "vectorizer", "example_vector"],
  -- cell: scaler
  .imp ["StandardScaler"],
  .assign ["scaler"] ["StandardScaler"],
  -- cell: pipeline
  .imp ["Pipeline"],
  .imp ["LogisticRegression"],
  .assign ["classifier"] ["LogisticRegression"],
  .assign ["pipeline"] ["Pipeline", "vectorizer", "scaler", "classifier"],
  -- cell: parameter grid
  .assign ["param_grid"] [],
  -- cell: randomized search
  .imp ["parallel_backend"],
  .imp ["RandomizedSearchCV"],
  .assign ["cv"] ["RandomizedSearchCV", "pipeline", "param_grid"],
  .expr ["cv", "x_train", "y_train"],
  -- cell: result
  .imp ["classification_report"],
  .assign ["prediction"] ["cv", "x_test"],
  .expr ["print", "classification_report", "y_test", "prediction", "ds"],
  -- cell: best parameters table
  .imp ["DataFrame"],
  .assign ["best_params_table"] ["DataFrame", "cv"],
  .expr ["display", "best_params_table"]]

/-! ## The RoBERTa document (src/sentiment/05-roberta.ipynb) -/

/-- The transformer document's statements.  Cells: IMDB dataset loading,
tokenizer and `tokenize` helper, tokenization of the splits, model loading,
optimizer, the two dropout config assignments, fit, predict/report, and the
accuracy plot. -/
def robertaDoc : PyStmt := pySeq [
  -- cell: data preparation
  .imp ["load_dataset"],
  .imp ["np"],
  .assign ["train", "test"] ["load_dataset"],
  .assign ["class_names"] ["train"],
  .assign ["x_train"] ["np", "train"],
  .assign ["y_train"] ["np", "train"],
  .assign ["x_test"] ["np", "test"],
  .assign ["y_test"] ["np", "test"],
  -- cell: tokenizer
  .imp ["RobertaTokenizerFast"],
  .assign ["tokenizer"] ["RobertaTokenizerFast"],
  .funcDef "tokenize" ["text"] ["tokenizer", "dict"],
  -- cell: tokenize the splits
  .assign ["x_train"] ["tokenize", "x_train"],
  .assign ["x_test"] ["tokenize", "x_test"],
  -- cell: model loading
  .imp ["RobertaForSequenceClassification"],
  .imp ["logging", "set_seed"],
  .expr ["logging"],
  .expr ["set_seed"],
  .assign ["model"] ["RobertaForSequenceClassification", "len", "class_names"],
  -- cell: optimizer
  .imp ["create_optimizer"],
  .assign ["epochs"] [],
  .assign ["validation_split"] [],
  .assign ["batch_size"] [],
  .assign ["num_train_steps"]
    ["epochs", "len", "x_train", "validation_split", "batch_size"],
  .assign ["optimizer", "_"] ["create_optimizer", "int", "num_train_steps"],
  -- cell: dropout config
  .expr ["model"],          -- model.config.attention_probs_dropout_prob = 0.3
  .expr ["model"],          -- model.config.hidden_dropout_prob = 0.3
  -- cell: compile and fit
  .imp ["device"],
  .withBlock ["device"] (pySeq [
    .expr ["model", "optimizer"],
    .assign ["history"]
      ["model", "x_train", "y_train", "epochs", "batch_size",
       "validation_split"]]),
  -- cell: result
  .imp ["classification_report"],
  .withBlock ["device"] (pySeq [
    .assign ["y_pred_values"] ["model", "x_test"],
    .assign ["y_pred_labels"] ["np", "y_pred_values"],
    .expr ["print", "classification_report", "y_test", "y_pred_labels",
           "class_names"]]),
  -- cell: plot
  .imp ["plt"],
  .expr ["plt"],
  .expr ["plt", "history"],
  .expr ["plt", "history"],
  .expr ["plt"],
  .expr ["plt"],
  .expr ["plt"],
  .expr ["plt"]]

/-! ## Embedding-matrix construction (LSTM document, cell `embedding_matrix`)

```python
embedding_matrix_shape = (len(tokenizer.word_index) + 1, wv.vector_size)
embedding_matrix = np.zeros(shape=embedding_matrix_shape)
for word, index in tokenizer.word_index.items():
  if word in wv:
    embedding_matrix[index] = wv.get_vector(word)
  else:
    embedding_matrix[index] = np.zeros(wv.vector_size)
```

The matrix is a list of rows, each row a vector of length `dim`; the
Word2Vec model `wv` is a partial map from words to vectors; `word_index` is
the tokenizer's association list of words to integer ids. -/

/-- Source `np.zeros(dim)`: the all-zero vector. -/
def zeroVec (dim : Nat) : List Int := List.replicate dim 0

/-- One iteration of the loop body: write into row `index` the Word2Vec
vector of `word` if present, the zero vector otherwise. -/
def embLoopStep (wv : String → Option (List Int)) (dim : Nat)
    (m : List (List Int)) (p : String × Nat) : List (List Int) :=
  match wv p.1 with
  | some v => m.set p.2 v
  | none => m.set p.2 (zeroVec dim)

/-- The loop over `word_index.items()`, starting from matrix `m`. -/
def embLoop (wv : String → Option (List Int)) (dim : Nat)
    (wordIndex : List (String × Nat)) (m : List (List Int)) : List (List Int) :=
  wordIndex.foldl (embLoopStep wv dim) m

/-- Source `embedding_matrix` after the cell: the `(len(word_index) + 1) × dim`
zero matrix with the loop run over every `(word, index)` pair. -/
def embeddingMatrix (wv : String → Option (List Int)) (dim : Nat)
    (wordIndex : List (String × Nat)) : List (List Int) :=
  embLoop wv dim wordIndex
    (List.replicate (wordIndex.length + 1) (zeroVec dim))

/-! ## Sequence padding (LSTM document, cell `maxlen = 96`)

```python
maxlen = 96
x_train = pad_sequences(tokenizer.texts_to_sequences(x_train), maxlen=maxlen)
x_test = pad_sequences(tokenizer.texts_to_sequences(x_test), maxlen=maxlen)
```

`pad_sequences` is called with Keras defaults `padding='pre'`,
`truncating='pre'`, `value=0`: a sequence keeps its last `maxlen` tokens and
is left-padded with zeros up to length `maxlen`. -/

/-- The `maxlen` constant of the LSTM document. -/
def maxlen : Nat := 96

/-- Keras `pad_sequences` on one sequence, with the default `pre` padding
and `pre` truncation and padding value `0`: keep the last `maxlen` tokens
(`s[-maxlen:]`) and prepend zeros up to length `maxlen`. -/
def padSequence (ml : Nat) (s : List Int) : List Int :=
  let t := s.drop (s.length - ml)
  List.replicate (ml - t.length) 0 ++ t

/-- Source `pad_sequences` on a batch of tokenized sequences, as the document
applies it to `x_train` and `x_test` with `maxlen = 96`. -/
def padSequences (seqs : List (List Int)) : List (List Int) :=
  seqs.map (padSequence maxlen)

/-! ## Seeded and unseeded randomized calls

LSTM document: `train, test = train_test_split(df, test_size=0.2)` — no
seed.  Logistic document: `ds.train_test_split(test_size=0.2, seed=0)` and
`RandomizedSearchCV(pipeline, param_grid, random_state=0, ...)` — fixed
seeds.  A call that passes no seed draws from the ambient global random
state; a call with a seed is a pure function of it. -/

/-- A split (or sampling) call site: the test fraction and the seed passed,
if any. -/
structure SplitCall where
  testSize : Rat
  seed : Option Nat
deriving DecidableEq

/-- Source `ds.train_test_split(test_size=0.2, seed=0)` of the logistic document. -/
def logisticSplitCall : SplitCall := ⟨1/5, some 0⟩

/-- Source `train_test_split(df, test_size=0.2)` of the LSTM document: no seed. -/
def lstmSplitCall : SplitCall := ⟨1/5, none⟩

/-- Source `random_state=0` of the logistic document's `RandomizedSearchCV`. -/
def cvRandomState : Option Nat := some 0

/-- Semantics of a split call: the library's splitter is a deterministic
function of a seed and the data; an unseeded call uses the ambient random
state of the interpreter run. -/
def runSplit {D S : Type} (splitter : Nat → D → S) (ambient : Nat)
    (c : SplitCall) (d : D) : S :=
  splitter (c.seed.getD ambient) d

/-- Semantics of the hyperparameter sampler: a deterministic function of the
`random_state` seed and the grid; unseeded sampling would use the ambient
random state. -/
def runSampler {P C : Type} (sampler : Nat → P → C) (ambient : Nat)
    (state : Option Nat) (grid : P) : C :=
  sampler (state.getD ambient) grid

/-! ## LSTM model and fit call (LSTM document)

```python
model = Sequential([
  layers.Embedding(..., trainable=True, mask_zero=True),
  layers.LSTM(128, dropout=0.2, recurrent_dropout=0.2),
  layers.Dropout(0.2),
  layers.Dense(num_classes, activation='softmax'),
])
earlystop = EarlyStopping(monitor='val_accuracy', patience=5,
                          restore_best_weights=True)
model.fit(x_train, y_train_encoded, epochs=35, batch_size=128,
          validation_split=0.1, callbacks=[earlystop])
```
-/

/-- The kind of a Keras layer, for stating the architecture. -/
inductive LayerKind where
  | embedding
  | lstm
  | dropout
  | dense
deriving DecidableEq

/-- A Keras layer as configured in the document. -/
inductive KerasLayer where
  /-- Source `layers.Embedding(weights=[embedding_matrix], ..., trainable, mask_zero)` -/
  | embedding (trainable maskZero : Bool)
  /-- Source `layers.LSTM(units, dropout, recurrent_dropout)` -/
  | lstm (units : Nat) (dropoutRate recurrentDropout : Rat)
  /-- Source `layers.Dropout(rate)` -/
  | dropout (rate : Rat)
  /-- Source `layers.Dense(num_classes, activation)` -/
  | dense (activation : String)
deriving DecidableEq

/-- The kind of a configured layer. -/
def layerKind : KerasLayer → LayerKind
  | .embedding _ _ => .embedding
  | .lstm _ _ _ => .lstm
  | .dropout _ => .dropout
  | .dense _ => .dense

/-- The `Sequential` layer list of the LSTM document, in source order. -/
def lstmModelLayers : List KerasLayer :=
  [.embedding true true, .lstm 128 (1/5) (1/5), .dropout (1/5),
   .dense "softmax"]

/-- A Keras callback as configured in the document. -/
inductive KerasCallback where
  | earlyStopping (monitor : String) (patience : Nat) (restoreBestWeights : Bool)
deriving DecidableEq

/-- Is the callback an early-stopping callback? -/
def isEarlyStopping : KerasCallback → Bool
  | .earlyStopping _ _ _ => true

/-- Source `earlystop = EarlyStopping(monitor='val_accuracy', patience=5,
restore_best_weights=True)`. -/
def earlystop : KerasCallback := .earlyStopping "val_accuracy" 5 true

/-- A `model.fit` call of the LSTM document. -/
structure KerasFitCall where
  epochs : Nat
  batchSize : Nat
  validationSplit : Rat
  callbacks : List KerasCallback
deriving DecidableEq

/-- All `model.fit` calls the LSTM document makes, in source order: exactly
one, `model.fit(x_train, y_train_encoded, epochs=35, batch_size=128,
validation_split=0.1, callbacks=[earlystop])`. -/
def lstmFitCalls : List KerasFitCall := [⟨35, 128, 1/10, [earlystop]⟩]

/-! ## Pipeline and randomized search (logistic document)

```python
pipeline = Pipeline([
    ('vectorizer', vectorizer),
    ('scaler', scaler),
    ('classifier', classifier),
])
param_grid = {
    'classifier__C': [0.1, 1, 10],
    'vectorizer__ngram_range': [(1, 1), (1, 2)],
    'vectorizer__max_df': [0.85, 0.90, 0.95, 1.0],
    'vectorizer__min_df': [1, 2, 3, 5],
}
cv = RandomizedSearchCV(pipeline, param_grid, random_state=0, n_jobs=-1,
                        verbose=3)
```
-/

/-- Kind of a pipeline stage: the three estimators the document constructs
(`CountVectorizer()`, `StandardScaler(with_mean=False)`,
`LogisticRegression()`). -/
inductive StageKind where
  | countVectorizer
  | standardScaler
  | logisticRegression
deriving DecidableEq

/-- The named stages of the document's `Pipeline`, in source order. -/
def pipelineStages : List (String × StageKind) :=
  [("vectorizer", .countVectorizer), ("scaler", .standardScaler),
   ("classifier", .logisticRegression)]

/-- A hyperparameter value in `param_grid`: a number or an n-gram range. -/
inductive GridValue where
  | num (q : Rat)
  | ngramRange (lo hi : Nat)
deriving DecidableEq

/-- The fixed `param_grid` of the document. -/
def param_grid : List (String × List GridValue) :=
  [("classifier__C", [.num (1/10), .num 1, .num 10]),
   ("vectorizer__ngram_range", [.ngramRange 1 1, .ngramRange 1 2]),
   ("vectorizer__max_df", [.num (17/20), .num (9/10), .num (19/20), .num 1]),
   ("vectorizer__min_df", [.num 1, .num 2, .num 3, .num 5])]

/-- Number of distinct grid combinations an exhaustive search would try:
the product of the candidate-list lengths. -/
def gridCombinations (g : List (String × List GridValue)) : Nat :=
  (g.map (fun p => p.2.length)).foldl (· * ·) 1

/-- The search strategy of a scikit-learn hyperparameter search call. -/
inductive SearchStrategy where
  /-- Source `RandomizedSearchCV` with its `n_iter` and `random_state` -/
  | randomized (nIter : Nat) (randomState : Option Nat)
  /-- Source `GridSearchCV`: every grid combination -/
  | exhaustive
deriving DecidableEq

/-- The search call the document makes: `RandomizedSearchCV(pipeline,
param_grid, random_state=0, n_jobs=-1, verbose=3)`, with the library default
`n_iter=10`. -/
def cvSearchStrategy : SearchStrategy := .randomized 10 (some 0)

/-- How many parameter settings a strategy evaluates on a grid: a randomized
search samples `n_iter` settings (all of them if the grid is smaller), an
exhaustive search tries them all. -/
def candidatesEvaluated (s : SearchStrategy)
    (g : List (String × List GridValue)) : Nat :=
  match s with
  | .randomized n _ => min n (gridCombinations g)
  | .exhaustive => gridCombinations g

/-! ## RoBERTa model, tokenizer and config (RoBERTa document)

```python
tokenizer = RobertaTokenizerFast.from_pretrained('distilbert/distilroberta-base')
model = RobertaForSequenceClassification.from_pretrained(
    'distilbert/distilroberta-base',
    num_labels=len(class_names),
)
model.config.attention_probs_dropout_prob = 0.3
model.config.hidden_dropout_prob = 0.3
...
history = model.fit(x_train, y_train, epochs=epochs, batch_size=batch_size,
                    validation_split=validation_split)
y_pred_values = model.predict(x_test, verbose=True).logits
```
-/

/-- The pretrained checkpoint name the model is loaded from. -/
def robertaModelName : String := "distilbert/distilroberta-base"

/-- The pretrained checkpoint name the tokenizer is loaded from. -/
def robertaTokenizerName : String := "distilbert/distilroberta-base"

/-- The attribute assignments the document applies to `model.config` after
loading, in source order. -/
def robertaConfigAssignments : List (String × Rat) :=
  [("attention_probs_dropout_prob", 3/10), ("hidden_dropout_prob", 3/10)]

/-- Apply a list of `model.config.<field> = <value>` assignments to a
configuration (a total map from field names to scalar values). -/
def applyConfigAssignments (asgns : List (String × Rat))
    (base : String → Rat) : String → Rat :=
  asgns.foldl (fun cfg a => fun f => if f = a.1 then a.2 else cfg f) base

/-- The model configuration after the document's two dropout assignments. -/
def robertaConfigAfter (base : String → Rat) : String → Rat :=
  applyConfigAssignments robertaConfigAssignments base

/-- Dataflow values of the document: the raw train/test text arrays and the
result of applying the `tokenize` helper to a value. -/
inductive TokData where
  | rawTrain
  | rawTest
  | tokenized (d : TokData)
deriving DecidableEq

/-- Source `x_train` after the cell `x_train = tokenize(x_train.tolist())`. -/
def robertaXTrain : TokData := .tokenized .rawTrain

/-- Source `x_test` after the cell `x_test = tokenize(x_test.tolist())`. -/
def robertaXTest : TokData := .tokenized .rawTest

/-- The input the document passes to `model.fit`. -/
def robertaFitInput : TokData := robertaXTrain

/-- The input the document passes to `model.predict`. -/
def robertaPredictInput : TokData := robertaXTest

/-! ## Concrete instances used by witnesses -/

/-- A concrete two-word Word2Vec model: `"good"` is in the vocabulary,
everything else is not. -/
def exWv : String → Option (List Int) :=
  fun w => if w = "good" then some [1, 2] else none

/-- A concrete tokenizer word index with ids 1 and 2. -/
def exWordIndex : List (String × Nat) := [("good", 1), ("bad", 2)]

/-- A concrete library behaviour: the second library call (the
`kagglehub.dataset_load` assignment of the LSTM document) raises a download
error, every other call succeeds. -/
def exBeh : Nat → StepRes :=
  fun j => if j = 1 then .raise .downloadError else .go true

/-! ## Theorems -/

theorem ciStep_inv (e : CiEvent) (s : CiState)
    (h1 : s.running.length ≤ 1) (h2 : s.cancelledInProgress = []) :
    (ciStep false s e).running.length ≤ 1 ∧
      (ciStep false s e).cancelledInProgress = [] := by
  cases e with
  | arrive id =>
    by_cases hr : s.running.isEmpty
    · simp [ciStep, hr, h2]
    · simp [ciStep, hr, h1, h2]
  | finish =>
    refine ⟨?_, by simp [ciStep, h2]⟩
    cases hp : s.pending <;> simp [ciStep, hp]

theorem ciRun_foldl_inv (evs : List CiEvent) :
    ∀ s : CiState, s.running.length ≤ 1 → s.cancelledInProgress = [] →
      (evs.foldl (ciStep false) s).running.length ≤ 1 ∧
        (evs.foldl (ciStep false) s).cancelledInProgress = [] := by
  induction evs with
  | nil => intro s h1 h2; exact ⟨h1, h2⟩
  | cons e rest ih =>
    intro s h1 h2
    have h := ciStep_inv e s h1 h2
    exact ih (ciStep false s e) h.1 h.2

/-- C1: for every push event, the deploy job runs if and only if the pushed
branch is the repository's main branch (named `master`, the branch the
workflow deploys GitHub Pages from). -/
theorem C1_deploy_runs_iff_main_branch (e : PushEvent) :
    deployJobRuns e = true ↔ e.branch = mainBranch := by
  simp [deployJobRuns, onPushBranches, mainBranch]

/-- C2 is false as stated: the LSTM document is not free of conditional
control flow and undefined names — its embedding-matrix cell branches on
`word in wv` and reads `wv` (and `np`), which the document never defines or
imports. -/
theorem C2_counterexample :
    ¬ (straightLineSelfContained lstmDoc ∧
        straightLineSelfContained logisticDoc ∧
        straightLineSelfContained robertaDoc) := by
  decide

/-- C2 amended: the logistic-regression and transformer documents are
straight-line and reference only names they define or import; the LSTM
document has no `while` and no `try`, but its embedding-matrix cell contains
an `if`/`else` and reads exactly the two names `wv` and `np` that the
document itself never defines or imports. -/
theorem C2_straight_line_amended :
    straightLineSelfContained logisticDoc ∧
    straightLineSelfContained robertaDoc ∧
    containsWhile lstmDoc = false ∧
    containsTry lstmDoc = false ∧
    containsIf lstmDoc = true ∧
    (undefUses freshEnv lstmDoc).1.dedup = ["wv", "np"] := by
  refine ⟨by decide, by decide, by decide, by decide, by decide, by decide⟩

/-- C4: the LSTM document's `Sequential` network consists exactly of an
embedding layer, an LSTM layer, a dropout layer and a dense layer, in that
order, and the document makes exactly one `model.fit` call, whose callbacks
list contains an early-stopping callback. -/
theorem C4_lstm_architecture_and_fit :
    lstmModelLayers.map layerKind =
      [.embedding, .lstm, .dropout, .dense] ∧
    lstmFitCalls.length = 1 ∧
    lstmFitCalls.map (fun c => c.callbacks.any isEarlyStopping) = [true] := by
  refine ⟨rfl, rfl, rfl⟩

/-- C5: the logistic-regression document's pipeline stages are exactly a
count vectorizer, then a scaler, then a logistic-regression classifier, and
hyperparameters are selected by a randomized search evaluating 10 sampled
settings of the fixed grid rather than all 96 grid combinations. -/
theorem C5_pipeline_and_randomized_search :
    pipelineStages.map Prod.snd =
      [.countVectorizer, .standardScaler, .logisticRegression] ∧
    pipelineStages.map Prod.fst = ["vectorizer", "scaler", "classifier"] ∧
    (∃ n st, cvSearchStrategy = .randomized n st) ∧
    candidatesEvaluated cvSearchStrategy param_grid = 10 ∧
    gridCombinations param_grid = 96 ∧
    candidatesEvaluated cvSearchStrategy param_grid <
      candidatesEvaluated .exhaustive param_grid := by
  refine ⟨rfl, rfl, ⟨10, some 0, rfl⟩, by decide, by decide, by decide⟩

/-- C7: the workflow is a single job (its steps a single ordered list), and
under the `pages` concurrency group with `cancel-in-progress: false` at most
one deployment run executes at any time and no in-progress run is ever
cancelled by a newly arriving one. -/
theorem C7_single_job_no_overlap_no_cancel :
    workflowJobs.length = 1 ∧
    workflowJobs.map Prod.fst = ["deploy"] ∧
    deployJobSteps.length = 7 ∧
    cancelInProgress = false ∧
    ∀ evs : List CiEvent,
      (ciRun cancelInProgress evs).running.length ≤ 1 ∧
        (ciRun cancelInProgress evs).cancelledInProgress = [] := by
  refine ⟨rfl, rfl, rfl, rfl, fun evs => ?_⟩
  exact ciRun_foldl_inv evs ciInit (by simp [ciInit]) rfl

/-- C10: the logistic-regression document's split and hyperparameter
sampling are reproducible — they pass fixed seeds (`seed=0`,
`random_state=0`), so two runs agree for every deterministic library
splitter/sampler — while the LSTM document's `train_test_split` passes no
seed, so there is a splitter and ambient random states under which two of
its runs produce different splits. -/
theorem C10_seeded_reproducible_unseeded_not :
    (∀ (D S : Type) (splitter : Nat → D → S) (d : D) (g1 g2 : Nat),
        runSplit splitter g1 logisticSplitCall d =
          runSplit splitter g2 logisticSplitCall d) ∧
    (∀ (P C : Type) (sampler : Nat → P → C) (grid : P) (g1 g2 : Nat),
        runSampler sampler g1 cvRandomState grid =
          runSampler sampler g2 cvRandomState grid) ∧
    (∃ (splitter : Nat → Nat → Nat) (d g1 g2 : Nat),
        runSplit splitter g1 lstmSplitCall d ≠
          runSplit splitter g2 lstmSplitCall d) := by
  refine ⟨fun D S sp d g1 g2 => rfl, fun P C sa grid g1 g2 => rfl,
    ⟨fun s _ => s, 0, 0, 1, by decide⟩⟩

theorem robertaConfigAfter_unfold (base : String → Rat) (f : String) :
    robertaConfigAfter base f =
      if f = "hidden_dropout_prob" then 3/10
      else if f = "attention_probs_dropout_prob" then 3/10
      else base f := rfl

/-- C3: the transformer document loads model and tokenizer from the same
pretrained name `distilbert/distilroberta-base`, assigns exactly the two
dropout scalars `attention_probs_dropout_prob` and `hidden_dropout_prob`
(both to `0.3`) on the loaded model's config, leaves every other config
field unchanged, and passes the tokenized train/test data to `model.fit`
and `model.predict`. -/
theorem C3_roberta_load_config_fit (base : String → Rat) :
    robertaTokenizerName = robertaModelName ∧
    robertaModelName = "distilbert/distilroberta-base" ∧
    robertaConfigAssignments.map Prod.fst =
      ["attention_probs_dropout_prob", "hidden_dropout_prob"] ∧
    robertaConfigAssignments.map Prod.snd = [3/10, 3/10] ∧
    robertaConfigAfter base "attention_probs_dropout_prob" = 3/10 ∧
    robertaConfigAfter base "hidden_dropout_prob" = 3/10 ∧
    (∀ f : String, f ≠ "attention_probs_dropout_prob" →
        f ≠ "hidden_dropout_prob" → robertaConfigAfter base f = base f) ∧
    robertaFitInput = TokData.tokenized TokData.rawTrain ∧
    robertaPredictInput = TokData.tokenized TokData.rawTest := by
  refine ⟨rfl, rfl, rfl, rfl, ?_, ?_, ?_, rfl, rfl⟩
  · rw [robertaConfigAfter_unfold, if_neg (by decide), if_pos rfl]
  · rw [robertaConfigAfter_unfold, if_pos rfl]
  · intro f h1 h2
    rw [robertaConfigAfter_unfold, if_neg h2, if_neg h1]

/-- C3 witness: at the constant base configuration `1`, the two dropout
fields read back `0.3` and an unrelated field (`num_labels`) is untouched. -/
theorem C3_roberta_witness :
    robertaConfigAfter (fun _ => 1) "attention_probs_dropout_prob" = 3/10 ∧
    robertaConfigAfter (fun _ => 1) "num_labels" = (fun _ => (1 : Rat)) "num_labels" := by
  have h := C3_roberta_load_config_fit (fun _ => 1)
  exact ⟨h.2.2.2.2.1, h.2.2.2.2.2.2.1 "num_labels" (by decide) (by decide)⟩

theorem runPy_error_raised (beh : Nat → StepRes) :
    ∀ p : PyStmt, containsTry p = false →
      ∀ (k : Nat) (e : Err), runPy beh p k = .error e →
        ∃ j, beh j = .raise e := by
  intro p
  induction p with
  | pass =>
    intro _ k e h
    simp [runPy] at h
  | imp ns =>
    intro _ k e h
    unfold runPy at h
    cases hb : beh k with
    | go b => rw [hb] at h; simp at h
    | raise e' => rw [hb] at h; simp at h; exact ⟨k, by rw [hb, h]⟩
  | assign ts us =>
    intro _ k e h
    unfold runPy at h
    cases hb : beh k with
    | go b => rw [hb] at h; simp at h
    | raise e' => rw [hb] at h; simp at h; exact ⟨k, by rw [hb, h]⟩
  | expr us =>
    intro _ k e h
    unfold runPy at h
    cases hb : beh k with
    | go b => rw [hb] at h; simp at h
    | raise e' => rw [hb] at h; simp at h; exact ⟨k, by rw [hb, h]⟩
  | funcDef n ps bus =>
    intro _ k e h
    simp [runPy] at h
  | seq a b iha ihb =>
    intro htry k e h
    simp [containsTry] at htry
    unfold runPy at h
    cases hra : runPy beh a k with
    | error e' =>
      rw [hra] at h; simp at h
      exact iha htry.1 k e (by rw [hra, h])
    | ok k' =>
      rw [hra] at h
      exact ihb htry.2 k' e h
  | forLoop ts itus body ih =>
    intro htry k e h
    simp [containsTry] at htry
    unfold runPy at h
    cases hb : beh k with
    | raise e' => rw [hb] at h; simp at h; exact ⟨k, by rw [hb, h]⟩
    | go bv =>
      rw [hb] at h
      cases bv with
      | true => exact ih htry (k + 1) e h
      | false => simp at h
  | ifElse c t f iht ihf =>
    intro htry k e h
    simp [containsTry] at htry
    unfold runPy at h
    cases hb : beh k with
    | raise e' => rw [hb] at h; simp at h; exact ⟨k, by rw [hb, h]⟩
    | go bv =>
      rw [hb] at h
      cases bv with
      | true => exact iht htry.1 (k + 1) e h
      | false => exact ihf htry.2 (k + 1) e h
  | whileLoop c body ih =>
    intro htry k e h
    simp [containsTry] at htry
    unfold runPy at h
    cases hb : beh k with
    | raise e' => rw [hb] at h; simp at h; exact ⟨k, by rw [hb, h]⟩
    | go bv =>
      rw [hb] at h
      cases bv with
      | true => exact ih htry (k + 1) e h
      | false => simp at h
  | tryExcept body handler ihb ihh =>
    intro htry _ _ _
    simp [containsTry] at htry
  | withBlock c body ih =>
    intro htry k e h
    simp [containsTry] at htry
    unfold runPy at h
    cases hb : beh k with
    | raise e' => rw [hb] at h; simp at h; exact ⟨k, by rw [hb, h]⟩
    | go bv => rw [hb] at h; exact ih htry (k + 1) e h

/-- C6: none of the three documents contains a `try`/`except` handler or a
`while` (retry) loop, and consequently any error a library call raises
during a run of any of the three documents is returned unchanged as the
run's outcome — it is the very error the library raised. -/
theorem C6_errors_propagate_unchanged :
    (containsTry lstmDoc = false ∧ containsTry logisticDoc = false ∧
      containsTry robertaDoc = false) ∧
    (containsWhile lstmDoc = false ∧ containsWhile logisticDoc = false ∧
      containsWhile robertaDoc = false) ∧
    (∀ p : PyStmt, p = lstmDoc ∨ p = logisticDoc ∨ p = robertaDoc →
      ∀ (beh : Nat → StepRes) (k : Nat) (e : Err),
        runPy beh p k = .error e → ∃ j, beh j = .raise e) := by
  refine ⟨⟨by decide, by decide, by decide⟩,
    ⟨by decide, by decide, by decide⟩, fun p hp beh k e h => ?_⟩
  rcases hp with hp | hp | hp <;> subst hp <;>
    exact runPy_error_raised beh _ (by decide) k e h

/-- C6 witness: when the `kagglehub.dataset_load` call of the LSTM document
raises a download error, the run aborts with exactly that error, which the
library indeed raised. -/
theorem C6_errors_witness : ∃ j, exBeh j = .raise .downloadError :=
  C6_errors_propagate_unchanged.2.2 lstmDoc (Or.inl rfl) exBeh 0
    Err.downloadError (by rfl)

theorem embLoopStep_length (wv : String → Option (List Int)) (dim : Nat)
    (m : List (List Int)) (p : String × Nat) :
    (embLoopStep wv dim m p).length = m.length := by
  unfold embLoopStep
  cases wv p.1 <;> simp

theorem embLoop_length (wv : String → Option (List Int)) (dim : Nat) :
    ∀ (wi : List (String × Nat)) (m : List (List Int)),
      (embLoop wv dim wi m).length = m.length := by
  intro wi
  induction wi with
  | nil => intro m; rfl
  | cons q rest ih =>
    intro m
    show (embLoop wv dim rest (embLoopStep wv dim m q)).length = m.length
    rw [ih, embLoopStep_length]

theorem embLoop_getElem?_not_mem (wv : String → Option (List Int)) (dim : Nat) :
    ∀ (wi : List (String × Nat)) (m : List (List Int)) (i : Nat),
      i ∉ wi.map Prod.snd → (embLoop wv dim wi m)[i]? = m[i]? := by
  intro wi
  induction wi with
  | nil => intro m i _; rfl
  | cons q rest ih =>
    intro m i hi
    simp only [List.map_cons, List.mem_cons, not_or] at hi
    show (embLoop wv dim rest (embLoopStep wv dim m q))[i]? = m[i]?
    rw [ih _ i hi.2]
    unfold embLoopStep
    cases wv q.1 <;> exact List.getElem?_set_ne (fun h => hi.1 h.symm)

theorem embLoop_getElem?_mem (wv : String → Option (List Int)) (dim : Nat) :
    ∀ (wi : List (String × Nat)) (m : List (List Int)),
      (wi.map Prod.snd).Nodup → (∀ p ∈ wi, p.2 < m.length) →
      ∀ p ∈ wi, (embLoop wv dim wi m)[p.2]? =
        some ((wv p.1).getD (zeroVec dim)) := by
  intro wi
  induction wi with
  | nil => intro m _ _ p hp; exact absurd hp (List.not_mem_nil p)
  | cons q rest ih =>
    intro m hnodup hlt p hp
    simp only [List.map_cons, List.nodup_cons] at hnodup
    rcases List.mem_cons.mp hp with hpq | hpr
    · subst hpq
      show (embLoop wv dim rest (embLoopStep wv dim m p))[p.2]? = _
      rw [embLoop_getElem?_not_mem wv dim rest _ p.2 hnodup.1]
      have hplen : p.2 < m.length := hlt p hp
      unfold embLoopStep
      cases hwv : wv p.1 with
      | some v => simp [List.getElem?_set_eq_of_lt v hplen]
      | none => simp [List.getElem?_set_eq_of_lt _ hplen]
    · show (embLoop wv dim rest (embLoopStep wv dim m q))[p.2]? = _
      refine ih _ hnodup.2 ?_ p hpr
      intro r hr
      rw [embLoopStep_length]
      exact hlt r (List.mem_cons_of_mem q hr)

/-- C8: after the embedding-matrix loop, for every `(word, index)` pair of
the tokenizer's word index (Keras assigns distinct ids `1..n` to the `n`
vocabulary words, which the hypotheses record), row `index` of
`embedding_matrix` is the Word2Vec vector of `word` when the word is in the
Word2Vec vocabulary and the all-zero vector otherwise, and row 0 — the
padding id — is the all-zero vector. -/
theorem C8_embedding_matrix_rows (wv : String → Option (List Int)) (dim : Nat)
    (wordIndex : List (String × Nat))
    (hnodup : (wordIndex.map Prod.snd).Nodup)
    (hpos : ∀ p ∈ wordIndex, 1 ≤ p.2)
    (hle : ∀ p ∈ wordIndex, p.2 ≤ wordIndex.length) :
    (∀ p ∈ wordIndex,
        (embeddingMatrix wv dim wordIndex)[p.2]? =
          some ((wv p.1).getD (zeroVec dim))) ∧
    (embeddingMatrix wv dim wordIndex)[(0 : Nat)]? = some (zeroVec dim) := by
  constructor
  · intro p hp
    refine embLoop_getElem?_mem wv dim wordIndex _ hnodup ?_ p hp
    intro r hr
    rw [List.length_replicate]
    exact Nat.lt_succ_of_le (hle r hr)
  · have h0 : (0 : Nat) ∉ wordIndex.map Prod.snd := by
      intro hmem
      obtain ⟨p, hp, hp2⟩ := List.mem_map.mp hmem
      have := hpos p hp
      omega
    show (embLoop wv dim wordIndex _)[(0 : Nat)]? = _
    rw [embLoop_getElem?_not_mem wv dim wordIndex _ 0 h0]
    rw [List.replicate_succ]
    simp

/-- C8 witness: with a two-word index (`good` ↦ 1, `bad` ↦ 2) and a
Word2Vec vocabulary containing only `good`, row 1 holds the vector of
`good` and row 0 is all zeros. -/
theorem C8_embedding_matrix_witness :
    (embeddingMatrix exWv 2 exWordIndex)[(1 : Nat)]? =
      some ((exWv "good").getD (zeroVec 2)) ∧
    (embeddingMatrix exWv 2 exWordIndex)[(0 : Nat)]? = some (zeroVec 2) := by
  have h := C8_embedding_matrix_rows exWv 2 exWordIndex (by decide)
    (by decide) (by decide)
  exact ⟨h.1 ("good", 1) (by decide), h.2⟩

theorem padSequence_length (ml : Nat) (s : List Int) :
    (padSequence ml s).length = ml := by
  simp [padSequence]
  omega

theorem padSequence_of_long (ml : Nat) (s : List Int) (h : ml < s.length) :
    padSequence ml s = s.drop (s.length - ml) := by
  show List.replicate (ml - (s.drop (s.length - ml)).length) 0 ++
      s.drop (s.length - ml) = s.drop (s.length - ml)
  have hlen : (s.drop (s.length - ml)).length = ml := by
    rw [List.length_drop]; omega
  rw [hlen, Nat.sub_self, List.replicate_zero, List.nil_append]

theorem padSequence_of_short (ml : Nat) (s : List Int) (h : s.length ≤ ml) :
    padSequence ml s = List.replicate (ml - s.length) 0 ++ s := by
  show List.replicate (ml - (s.drop (s.length - ml)).length) 0 ++
      s.drop (s.length - ml) = _
  rw [Nat.sub_eq_zero_of_le h, List.drop_zero]

/-- C9: every row produced by the padding step (`pad_sequences` with
`maxlen = 96` and Keras's default `pre` padding and `pre` truncation) has
length exactly 96; a sequence longer than 96 keeps exactly its last 96
tokens (earlier tokens never reach the model), and a shorter one is
extended with zeros at the front. -/
theorem C9_padding_rows :
    (∀ (seqs : List (List Int)) (r : List Int),
        r ∈ padSequences seqs → r.length = maxlen) ∧
    (∀ s : List Int, maxlen < s.length →
        padSequence maxlen s = s.drop (s.length - maxlen)) ∧
    (∀ s : List Int, s.length ≤ maxlen →
        padSequence maxlen s = List.replicate (maxlen - s.length) 0 ++ s) := by
  refine ⟨?_, fun s h => padSequence_of_long maxlen s h,
    fun s h => padSequence_of_short maxlen s h⟩
  intro seqs r hr
  obtain ⟨s, _, hs⟩ := List.mem_map.mp hr
  rw [← hs]
  exact padSequence_length maxlen s

/-- C9 witness: a 100-token sequence is cut to its last 96 tokens and a
1-token sequence is left-padded with 95 zeros; the padded batch row has
length 96. -/
theorem C9_padding_witness :
    (padSequence maxlen (List.replicate 100 7)).length = maxlen ∧
    padSequence maxlen (List.replicate 100 7) =
      (List.replicate 100 (7 : Int)).drop ((List.replicate 100 (7 : Int)).length - maxlen) ∧
    padSequence maxlen [5] =
      List.replicate (maxlen - ([5] : List Int).length) 0 ++ [5] := by
  refine ⟨?_, ?_, ?_⟩
  · exact C9_padding_rows.1 [List.replicate 100 7] _ (by simp [padSequences])
  · exact C9_padding_rows.2.1 (List.replicate 100 7) (by decide)
  · exact C9_padding_rows.2.2 [5] (by decide)

end MlRepo
